import Mathlib

/-!
Shallow embedding of the Mater Dei surgical antibiotic-prophylaxis auditor
(`src/utils/text_utils.py`, `src/config/settings.py`,
`src/controllers/surgery_auditor.py`) together with the parts of the
`rapidfuzz` string-similarity library that the auditor calls.

Conventions of the embedding:
* Python strings are Lean `String`s; most text processing is carried out on
  the underlying `List Char`.
* Python floats are modelled as exact rationals (`ℚ`); decimal literals are
  read exactly.
* Fallible operations return `Option`/`Except`.
* Python truthiness of an optional string/number/list is made explicit at
  each use site.
-/

/-- ASCII whitespace, as recognized by Python `str.split()` and the regex
class `\s` (the system's inputs are ASCII after normalization). -/
def isPySpace (c : Char) : Bool :=
  c = ' ' ∨ c = '\t' ∨ c = '\n' ∨ c = '\r' ∨ c = '\x0b' ∨ c = '\x0c'

/-- One character of `unicodedata.normalize('NFKD', ·).encode('ASCII', 'ignore')`:
ASCII characters are kept, Latin letters with diacritics decompose into their
base letter followed by a combining mark which the ASCII encoding then drops,
and any other non-ASCII character is dropped.  The table lists the accented
letters of the system's Portuguese text repertoire. -/
def nfkdAscii (c : Char) : List Char :=
  if c.toNat < 128 then [c]
  else
    let table : List (Char × Char) :=
      [('á', 'a'), ('à', 'a'), ('â', 'a'), ('ã', 'a'), ('ä', 'a'),
       ('é', 'e'), ('è', 'e'), ('ê', 'e'), ('ë', 'e'),
       ('í', 'i'), ('ì', 'i'), ('î', 'i'), ('ï', 'i'),
       ('ó', 'o'), ('ò', 'o'), ('ô', 'o'), ('õ', 'o'), ('ö', 'o'),
       ('ú', 'u'), ('ù', 'u'), ('û', 'u'), ('ü', 'u'),
       ('ç', 'c'), ('ñ', 'n'), ('ý', 'y'),
       ('Á', 'A'), ('À', 'A'), ('Â', 'A'), ('Ã', 'A'), ('Ä', 'A'),
       ('É', 'E'), ('È', 'E'), ('Ê', 'E'), ('Ë', 'E'),
       ('Í', 'I'), ('Ì', 'I'), ('Î', 'I'), ('Ï', 'I'),
       ('Ó', 'O'), ('Ò', 'O'), ('Ô', 'O'), ('Õ', 'O'), ('Ö', 'O'),
       ('Ú', 'U'), ('Ù', 'U'), ('Û', 'U'), ('Ü', 'U'),
       ('Ç', 'C'), ('Ñ', 'N'), ('ª', 'a'), ('º', 'o')]
    match table.find? (fun p => p.1 = c) with
    | some p => [p.2]
    | none => []

/-- Is `c` kept by `re.sub(r'[^a-z0-9\s]', ' ', ·)`? -/
def isKeptByNormalize (c : Char) : Bool :=
  ('a' ≤ c ∧ c ≤ 'z') ∨ ('0' ≤ c ∧ c ≤ '9') ∨ isPySpace c

/-- `re.sub(r'[^a-z0-9\s]', ' ', ·)` on one character. -/
def substNonAlnum (c : Char) : Char :=
  if isKeptByNormalize c then c else ' '

/-- Python `str.split()`: split on runs of whitespace, dropping empty pieces. -/
def splitWS (l : List Char) : List (List Char) :=
  (l.splitOnP isPySpace).filter (fun t => !t.isEmpty)

/-- Python `" ".join(·)` on a list of tokens. -/
def joinSp (ts : List (List Char)) : List Char :=
  List.intercalate [' '] ts

/-- `normalize_text` (src/utils/text_utils.py, lines 10-36): strip accents,
lowercase, replace every character outside `[a-z0-9\s]` by a space, and
collapse whitespace. -/
def normalize_text (text : String) : String :=
  ⟨joinSp (splitWS (((text.data.map nfkdAscii).flatten.map Char.toLower).map substNonAlnum))⟩

/-- Lexicographic comparison of tokens by code point, as Python `sorted` uses
on strings. -/
def tokLe : List Char → List Char → Bool
  | [], _ => true
  | _ :: _, [] => false
  | a :: as, b :: bs => if a = b then tokLe as bs else decide (a < b)

/-- `sorted(·)` on a collection of tokens. -/
def sortToks (ts : List (List Char)) : List (List Char) :=
  ts.insertionSort (fun a b => tokLe a b = true)

/-- Length of a longest common subsequence; `rapidfuzz`'s InDel distance is
`len₁ + len₂ - 2·lcs`. -/
def lcs : List Char → List Char → Nat
  | [], _ => 0
  | _ :: _, [] => 0
  | a :: as, b :: bs =>
    if a = b then lcs as bs + 1
    else max (lcs (a :: as) bs) (lcs as (b :: bs))
termination_by s1 s2 => s1.length + s2.length
decreasing_by all_goals simp_arith

/-- `rapidfuzz` InDel distance between two strings (insertions and deletions
only). -/
def indel_dist (s1 s2 : List Char) : ℚ :=
  (s1.length + s2.length : ℚ) - 2 * lcs s1 s2

/-- `rapidfuzz.fuzz.ratio`: normalized InDel similarity, scaled to `[0, 100]`;
two empty strings score 100. -/
def fuzz_ratio (s1 s2 : List Char) : ℚ :=
  let total : ℚ := s1.length + s2.length
  if total = 0 then 100 else 100 * (1 - indel_dist s1 s2 / total)

/-- `rapidfuzz.fuzz.token_set_ratio` (pure-Python reference implementation):
compare the sorted intersection and differences of the whitespace token sets;
return 100 outright when one token set is a non-empty subset of the other. -/
def token_set_ratio (s1 s2 : List Char) : ℚ :=
  let tokens_a := (splitWS s1).dedup
  let tokens_b := (splitWS s2).dedup
  if tokens_a = [] ∨ tokens_b = [] then 0
  else
    let intersect := tokens_a.filter (fun t => decide (t ∈ tokens_b))
    let diff_ab := tokens_a.filter (fun t => decide (t ∉ tokens_b))
    let diff_ba := tokens_b.filter (fun t => decide (t ∉ tokens_a))
    if intersect ≠ [] ∧ (diff_ab = [] ∨ diff_ba = []) then 100
    else
      let diff_ab_joined := joinSp (sortToks diff_ab)
      let diff_ba_joined := joinSp (sortToks diff_ba)
      let ab_len : ℚ := diff_ab_joined.length
      let ba_len : ℚ := diff_ba_joined.length
      let sect_len : ℚ := (joinSp intersect).length
      let sect_bonus : ℚ := if sect_len ≠ 0 then 1 else 0
      let sect_ab_len : ℚ := sect_len + sect_bonus + ab_len
      let sect_ba_len : ℚ := sect_len + sect_bonus + ba_len
      let result := fuzz_ratio diff_ab_joined diff_ba_joined
      let sect_ab_dist : ℚ := sect_bonus + ab_len
      let sect_ba_dist : ℚ := sect_bonus + ba_len
      let sect_ab_ratio : ℚ := 100 * (1 - sect_ab_dist / (sect_ab_len + sect_len))
      let sect_ba_ratio : ℚ := 100 * (1 - sect_ba_dist / (sect_ba_len + sect_len))
      max result (max sect_ab_ratio sect_ba_ratio)

/-- `fuzzy_match_score` (src/utils/text_utils.py, lines 93-116): 0 on an empty
input, 1 on equal normalized forms, otherwise `token_set_ratio` of the
normalized forms scaled to `[0, 1]`. -/
def fuzzy_match_score (text1 text2 : String) : ℚ :=
  if text1 = "" ∨ text2 = "" then 0
  else
    let norm1 := normalize_text text1
    let norm2 := normalize_text text2
    if norm1 = norm2 then 1
    else token_set_ratio norm1.data norm2.data / 100

/-- Is `c` in the regex class `[A-Z0-9]` (the negative lookbehind of the dose
patterns)? -/
def isUpperDigit (c : Char) : Bool :=
  ('A' ≤ c ∧ c ≤ 'Z') ∨ ('0' ≤ c ∧ c ≤ '9')

/-- Is `c` a regex word character (for `\b` boundaries)?  The scanned text is
ASCII. -/
def isWordChar (c : Char) : Bool :=
  ('A' ≤ c ∧ c ≤ 'Z') ∨ ('a' ≤ c ∧ c ≤ 'z') ∨ ('0' ≤ c ∧ c ≤ '9') ∨ c = '_'

/-- Is `c` a decimal digit (`\d`)? -/
def isDigitChar (c : Char) : Bool := '0' ≤ c ∧ c ≤ '9'

/-- Numeric value of a run of digit characters. -/
def digitsVal (ds : List Char) : Nat :=
  ds.foldl (fun n c => 10 * n + (c.toNat - '0'.toNat)) 0

/-- Greedy parse of the regex `\d+(?:\.\d+)?` at the head of `l`: the decimal
value, read exactly, and the unconsumed rest.  When no digit follows the dot
the optional fractional group is not taken, exactly as the regex backtracks. -/
def parseNumber (l : List Char) : Option (ℚ × List Char) :=
  let ds := l.takeWhile isDigitChar
  let rest := l.dropWhile isDigitChar
  if ds.isEmpty then none
  else
    match rest with
    | '.' :: rest2 =>
      let fs := rest2.takeWhile isDigitChar
      if fs.isEmpty then some ((digitsVal ds : ℚ), rest)
      else some ((digitsVal ds : ℚ) + (digitsVal fs : ℚ) / (10 : ℚ) ^ fs.length,
                 rest2.dropWhile isDigitChar)
    | _ => some ((digitsVal ds : ℚ), rest)

/-- Does a word boundary (`\b`) fall before `l`?  The previous character is
always a letter here. -/
def boundaryAfter : List Char → Bool
  | [] => true
  | d :: _ => !isWordChar d

/-- Match one of the unit alternatives (in regex order) as a prefix of `l`,
subject to the trailing word boundary `\b`; returns the rest after the unit. -/
def matchUnit (units : List (List Char)) (l : List Char) : Option (List Char) :=
  units.findSome? (fun u =>
    if l.take u.length = u ∧ boundaryAfter (l.drop u.length) then
      some (l.drop u.length)
    else none)

/-- Attempt to match `(?<![A-Z0-9])(\d+(?:\.\d+)?)\s*UNIT\b` at position `i`
of `s`; on success returns the parsed value and the end position. -/
def attemptDose (units : List (List Char)) (s : List Char) (i : Nat) : Option (ℚ × Nat) :=
  if i = 0 ∨ !isUpperDigit (s.getD (i - 1) ' ') then
    match parseNumber (s.drop i) with
    | none => none
    | some (v, r1) =>
      let r2 := r1.dropWhile isPySpace
      match matchUnit units r2 with
      | none => none
      | some r3 => some (v, i + ((s.drop i).length - r3.length))
  else none

/-- `re.finditer` with the dose pattern for `units`: scan `s` left to right,
emit non-overlapping matches, resume after each match.  The fuel argument is
called with `s.length + 1`, which bounds the number of scan steps. -/
def scanDoses (units : List (List Char)) (s : List Char) : Nat → Nat → List ℚ
  | 0, _ => []
  | fuel + 1, i =>
    if s.length ≤ i then []
    else
      match attemptDose units s i with
      | some (v, j) => v :: scanDoses units s fuel (max j (i + 1))
      | none => scanDoses units s fuel (i + 1)

/-- The gram-unit alternatives of `r'(?<![A-Z0-9])(\d+(?:\.\d+)?)\s*(?:G|GR|GRAMA|GRAMAS)\b'`. -/
def gramUnits : List (List Char) :=
  [['G'], ['G', 'R'], ['G', 'R', 'A', 'M', 'A'], ['G', 'R', 'A', 'M', 'A', 'S']]

/-- The milligram-unit alternative of `r'(?<![A-Z0-9])(\d+(?:\.\d+)?)\s*MG\b'`. -/
def mgUnits : List (List Char) := [['M', 'G']]

/-- The candidate doses in mg collected by `extract_dose_from_text`: gram
matches (scaled by 1000) followed by milligram matches, over the uppercased
text with decimal commas replaced by dots. -/
def doseCandidates (text : String) : List ℚ :=
  let s := (text.data.map Char.toUpper).map (fun c => if c = ',' then '.' else c)
  ((scanDoses gramUnits s (s.length + 1) 0).map (fun v => v * 1000)) ++
    scanDoses mgUnits s (s.length + 1) 0

/-- `extract_dose_from_text` (src/utils/text_utils.py, lines 119-160): the
largest candidate dose in mg, or `none` when no dose pattern is recognized. -/
def extract_dose_from_text (text : String) : Option ℚ :=
  match doseCandidates text with
  | [] => none
  | c :: cs => some (cs.foldl max c)

/-- Python `int(·)` on the string shapes that occur here: optional surrounding
whitespace, an optional sign, then decimal digits; anything else raises (is
`none`). -/
def pyInt (l : List Char) : Option Int :=
  let t := ((l.dropWhile isPySpace).reverse.dropWhile isPySpace).reverse
  match t with
  | '-' :: ds => if ds ≠ [] ∧ ds.all isDigitChar then some (-(digitsVal ds : Int)) else none
  | '+' :: ds => if ds ≠ [] ∧ ds.all isDigitChar then some ((digitsVal ds : Int)) else none
  | ds => if ds ≠ [] ∧ ds.all isDigitChar then some ((digitsVal ds : Int)) else none

/-- `calculate_time_diff_minutes` (src/utils/text_utils.py, lines 199-227):
signed minute difference `time2 - time1`, wrapped across midnight toward the
shorter direction when the raw difference exceeds 12 hours in magnitude;
`none` when splitting or integer parsing fails. -/
def calculate_time_diff_minutes (time1 time2 : String) : Option Int :=
  match time1.data.splitOn ':', time2.data.splitOn ':' with
  | a0 :: a1 :: _, b0 :: b1 :: _ =>
    match pyInt a0, pyInt a1, pyInt b0, pyInt b1 with
    | some h1, some m1, some h2, some m2 =>
      let t1_minutes := h1 * 60 + m1
      let t2_minutes := h2 * 60 + m2
      let diff := t2_minutes - t1_minutes
      some (if diff < -720 then diff + 1440 else if diff > 720 then diff - 1440 else diff)
    | _, _, _, _ => none
  | _, _ => none

/-- The conformity status vocabulary (src/config/settings.py
`CONFORMITY_STATUS`): every criterion and final status is one of these four
strings. -/
inductive Status where
  | CONFORME
  | NAO_CONFORME
  | ALERTA
  | INDETERMINADO
deriving DecidableEq, Repr

/-- `Drug` (src/models/protocol_rules.py): one medication of a
recommendation. -/
structure Drug where
  name : String
  dose : Option String := none
  route : Option String := none
  timing : Option String := none
deriving DecidableEq, Repr

/-- `Recommendation` (src/models/protocol_rules.py). -/
structure Recommendation where
  drugs : List Drug := []
  raw_text : String := ""
  notes : String := ""
deriving DecidableEq, Repr

/-- `ProtocolRule` (src/models/protocol_rules.py); `sect` models the source's
`section` field (a Lean keyword).  Load-time metadata fields the auditor never
reads are omitted. -/
structure ProtocolRule where
  rule_id : String := ""
  sect : String := ""
  procedure : String := ""
  procedure_normalized : String := ""
  is_prophylaxis_required : Bool := false
  primary_recommendation : Recommendation := {}
  allergy_recommendation : Recommendation := {}
  surgery_name : List String := []
deriving DecidableEq, Repr

/-- `SurgeryRecord` (src/models/audit_data.py) with its dataclass defaults;
the load-time fields (`date`, spreadsheet `conf_*`) that the auditor never
reads are omitted. -/
structure SurgeryRecord where
  procedure : String := ""
  specialty : String := ""
  incision_time : Option String := none
  atb_time : Option String := none
  repique_time : Option String := none
  atb_given : String := "NAO"
  atb_name : String := ""
  atb_detected : List String := []
  dose_administered_mg : Option ℚ := none
  repique_done : String := "NAO"
  patient_weight : Option ℚ := none
  row_index : Int := -1
deriving DecidableEq, Repr

/-- `AuditResult` (src/models/audit_data.py) with its dataclass defaults. -/
structure AuditResult where
  surgery_record : SurgeryRecord
  matched_rule_id : Option String := none
  match_score : ℚ := 0
  match_method : String := ""
  conf_escolha : Status := Status.INDETERMINADO
  conf_escolha_razao : String := ""
  conf_dose : Status := Status.INDETERMINADO
  conf_dose_razao : String := ""
  conf_timing : Status := Status.INDETERMINADO
  conf_timing_razao : String := ""
  conf_repique : Status := Status.INDETERMINADO
  conf_repique_razao : String := ""
  conf_final : Status := Status.INDETERMINADO
  conf_final_razao : String := ""
  protocolo_secao : String := ""
  protocolo_procedimento : String := ""
  protocolo_requer_profilaxia : Bool := false
  protocolo_atb_recomendados : List String := []
  protocolo_dose_esperada : String := ""
  dose_diferenca_mg : Option ℚ := none
  dose_diferenca_pct : Option ℚ := none
  timing_diferenca_minutos : Option Int := none
  repique_diferenca_minutos : Option Int := none
  observacoes : List String := []
deriving DecidableEq, Repr

/-- The audit configuration (src/config/settings.py `AUDIT_CONFIG`): one field
per `self.config.get(key, default)` lookup the auditor performs, holding the
value that lookup produces. -/
structure AuditConfig where
  match_threshold : ℚ := 70 / 100
  translation_match_similarity_threshold : ℚ := 45 / 100
  dose_tolerance_percent : ℚ := 15
  hard_dose_tolerance_percent : ℚ := 100
  timing_window_minutes : Int := 60
  alert_dose_tolerance_percent : ℚ := 10
deriving DecidableEq, Repr

/-- `AUDIT_CONFIG` (src/config/settings.py, lines 47-54): the default
configuration values. -/
def AUDIT_CONFIG : AuditConfig := {}

/-- `REDOSING_INTERVALS` (src/config/settings.py, lines 57-65) as the
`dict.get` lookup: `none` for an unknown drug. -/
def REDOSING_INTERVALS (drug : String) : Option Int :=
  (([("CEFAZOLINA", 240), ("CEFUROXIMA", 240), ("CEFOXITINA", 120),
     ("CLINDAMICINA", 360), ("VANCOMICINA", 0), ("GENTAMICINA", 0),
     ("CIPROFLOXACINO", 0)] : List (String × Int)).find? (fun p => p.1 = drug)).map (·.2)

/-- Python truthiness of an `Optional[str]` field: `None` and `""` are falsy. -/
def optStrTruthy : Option String → Bool
  | none => false
  | some s => s ≠ ""

/-- Python truthiness of an `Optional[float]` field: `None` and `0.0` are
falsy. -/
def optNumTruthy : Option ℚ → Bool
  | none => false
  | some q => q ≠ 0

/-- `_get_recommendation_drugs` (surgery_auditor.py, lines 607-614): the
primary and allergy recommendation drugs with a non-empty name. -/
def get_recommendation_drugs : Option ProtocolRule → List Drug
  | none => []
  | some rule =>
    (rule.primary_recommendation.drugs ++ rule.allergy_recommendation.drugs).filter
      (fun d => d.name ≠ "")

/-- `_rule_requires_prophylaxis` (surgery_auditor.py, lines 616-622). -/
def rule_requires_prophylaxis : Option ProtocolRule → Bool
  | none => false
  | some rule =>
    if rule.is_prophylaxis_required then true
    else get_recommendation_drugs (some rule) ≠ []

/-- `_validate_choice` (surgery_auditor.py, lines 573-605). -/
def validate_choice (record : SurgeryRecord) (rule : Option ProtocolRule) : Status × String :=
  match rule with
  | none => (Status.INDETERMINADO, "sem_match_protocolo")
  | some rule =>
    let recommended_drugs := get_recommendation_drugs (some rule)
    if recommended_drugs = [] then
      if ¬ rule_requires_prophylaxis (some rule) then
        (Status.ALERTA, "profilaxia_potencial_sem_indicacao")
      else (Status.INDETERMINADO, "atb_sem_referencia_protocolo")
    else if record.atb_detected = [] then (Status.INDETERMINADO, "atb_nao_identificado")
    else
      let acceptable_names := recommended_drugs.map (fun d => d.name)
      if record.atb_detected.any (fun d => acceptable_names.contains d) then
        (Status.CONFORME, "atb_recomendado")
      else if ¬ rule_requires_prophylaxis (some rule) then
        (Status.ALERTA, "profilaxia_potencial_sem_indicacao")
      else (Status.NAO_CONFORME, "atb_nao_recomendado")

/-- `_select_reference_drug` (surgery_auditor.py, lines 624-639): prefer a
recommended drug matching a detected one, else the first recommendation. -/
def select_reference_drug (record : SurgeryRecord) (rule : Option ProtocolRule) : Option Drug :=
  match get_recommendation_drugs rule with
  | [] => none
  | c0 :: cs =>
    let candidates := c0 :: cs
    match record.atb_detected.findSome?
        (fun det => candidates.find? (fun (d : Drug) => d.name = det)) with
    | some d => some d
    | none => some c0

/-- One attempt of the pattern `r'(\d+(?:\.\d+)?)\s*(MG|G)\s*/\s*KG'`
(IGNORECASE; the input is uppercased) at the head of `l`: the per-kg
coefficient and whether the unit group matched `G` (vs `MG`). -/
def attemptMgKg (l : List Char) : Option (ℚ × Bool) :=
  match parseNumber l with
  | none => none
  | some (v, r1) =>
    let r2 := r1.dropWhile isPySpace
    let unitRes : Option (Bool × List Char) :=
      if r2.take 2 = ['M', 'G'] then some (false, r2.drop 2)
      else if r2.take 1 = ['G'] then some (true, r2.drop 1)
      else none
    match unitRes with
    | none => none
    | some (isG, r3) =>
      let r4 := r3.dropWhile isPySpace
      match r4 with
      | '/' :: r5 =>
        let r6 := r5.dropWhile isPySpace
        if r6.take 2 = ['K', 'G'] then some (v, isG) else none
      | _ => none

/-- `re.search` with the mg/kg pattern: the match at the leftmost starting
position, if any. -/
def searchMgKg : List Char → Option (ℚ × Bool)
  | [] => none
  | c :: rest =>
    match attemptMgKg (c :: rest) with
    | some r => some r
    | none => searchMgKg rest

/-- The tolerance-band classification closing `_validate_dose`
(surgery_auditor.py, lines 703-717), as a function of the signed percent
difference. -/
def dose_band (cfg : AuditConfig) (diff_pct : ℚ) : Status × String :=
  let alert_tolerance := cfg.alert_dose_tolerance_percent
  let tolerance := cfg.dose_tolerance_percent
  let hard_tolerance := cfg.hard_dose_tolerance_percent
  if |diff_pct| ≤ alert_tolerance then (Status.CONFORME, "dose_correta")
  else if |diff_pct| ≤ tolerance then (Status.ALERTA, "dose_pequena_diferenca")
  else if |diff_pct| ≤ hard_tolerance then (Status.ALERTA, "dose_fora_referencia")
  else if diff_pct < -tolerance then (Status.NAO_CONFORME, "dose_muito_baixa")
  else (Status.NAO_CONFORME, "dose_muito_alta")

/-- `_validate_dose` (surgery_auditor.py, lines 641-717): the updated result
(dose deltas) together with the criterion status and reason. -/
def validate_dose (cfg : AuditConfig) (record : SurgeryRecord) (rule : Option ProtocolRule)
    (result : AuditResult) : AuditResult × Status × String :=
  match rule with
  | none => (result, Status.INDETERMINADO, "dose_sem_referencia")
  | some rule =>
    match select_reference_drug record (some rule) with
    | none => (result, Status.INDETERMINADO, "dose_sem_referencia")
    | some reference_drug =>
      if ¬ optStrTruthy reference_drug.dose then
        (result, Status.INDETERMINADO, "dose_sem_referencia")
      else
        let recommended_dose_text := reference_drug.dose.getD ""
        let expectedRes : Except (Status × String) ℚ :=
          match searchMgKg (recommended_dose_text.data.map Char.toUpper) with
          | some (coef, isG) =>
            let mg_per_kg := if isG then coef * 1000 else coef
            match record.patient_weight with
            | none => .error (Status.INDETERMINADO, "dose_sem_referencia_peso")
            | some w =>
              if w ≤ 0 then .error (Status.INDETERMINADO, "dose_sem_referencia_peso")
              else
                let expected_mg := mg_per_kg * w
                let expected_mg :=
                  if reference_drug.name = "CEFAZOLINA" then
                    min expected_mg (if 120 ≤ w then 3000 else 2000)
                  else expected_mg
                .ok expected_mg
          | none =>
            match extract_dose_from_text recommended_dose_text with
            | none => .error (Status.INDETERMINADO, "dose_sem_referencia")
            | some v =>
              if v = 0 then .error (Status.INDETERMINADO, "dose_sem_referencia") else .ok v
        match expectedRes with
        | .error sr => (result, sr.1, sr.2)
        | .ok recommended_dose_mg =>
          match record.dose_administered_mg with
          | none => (result, Status.INDETERMINADO, "dose_nao_informada")
          | some administered_mg =>
            if administered_mg = 0 then (result, Status.INDETERMINADO, "dose_nao_informada")
            else
              let diff_mg := administered_mg - recommended_dose_mg
              let diff_pct :=
                if 0 < recommended_dose_mg then diff_mg / recommended_dose_mg * 100 else 0
              let result := { result with dose_diferenca_mg := some diff_mg,
                                          dose_diferenca_pct := some diff_pct }
              let sr := dose_band cfg diff_pct
              (result, sr.1, sr.2)

/-- `_validate_timing` (surgery_auditor.py, lines 718-751). -/
def validate_timing (cfg : AuditConfig) (record : SurgeryRecord) (result : AuditResult) :
    AuditResult × Status × String :=
  if ¬ optStrTruthy record.incision_time ∨ ¬ optStrTruthy record.atb_time then
    (result, Status.INDETERMINADO, "horarios_nao_informados")
  else
    match calculate_time_diff_minutes (record.atb_time.getD "") (record.incision_time.getD "") with
    | none => (result, Status.INDETERMINADO, "erro_calculo_horario")
    | some diff_min =>
      let result := { result with timing_diferenca_minutos := some diff_min }
      if diff_min < 0 then (result, Status.NAO_CONFORME, "timing_apos_incisao")
      else if diff_min ≤ cfg.timing_window_minutes then (result, Status.CONFORME, "timing_correto")
      else (result, Status.NAO_CONFORME, "timing_fora_janela")

/-- `_validate_redosing` (surgery_auditor.py, lines 753-795). -/
def validate_redosing (record : SurgeryRecord) (result : AuditResult) :
    AuditResult × Status × String :=
  if record.repique_done ≠ "SIM" then (result, Status.CONFORME, "repique_nao_aplicavel")
  else
    let drug_name : Option String :=
      match record.atb_detected with
      | d :: _ => some d
      | [] =>
        match result.protocolo_atb_recomendados with
        | d :: _ => some d
        | [] => none
    match drug_name with
    | none => (result, Status.INDETERMINADO, "atb_nao_identificado")
    | some drug_name =>
      match REDOSING_INTERVALS drug_name with
      | none => (result, Status.CONFORME, "repique_nao_aplicavel")
      | some interval =>
        if interval ≤ 0 then (result, Status.CONFORME, "repique_nao_aplicavel")
        else if ¬ optStrTruthy record.atb_time ∨ ¬ optStrTruthy record.repique_time then
          (result, Status.INDETERMINADO, "repique_horarios_nao_informados")
        else
          match calculate_time_diff_minutes (record.atb_time.getD "")
              (record.repique_time.getD "") with
          | none => (result, Status.INDETERMINADO, "repique_horarios_nao_informados")
          | some diff_min =>
            let result := { result with repique_diferenca_minutos := some diff_min }
            if interval - 30 ≤ diff_min ∧ diff_min ≤ interval + 30 then
              (result, Status.CONFORME, "repique_no_intervalo")
            else (result, Status.NAO_CONFORME, "repique_fora_intervalo")

/-- `_calculate_final_conformity` (surgery_auditor.py, lines 797-844). -/
def calculate_final_conformity (result : AuditResult) : Status × String :=
  let statuses := [result.conf_escolha, result.conf_dose, result.conf_timing,
                   result.conf_repique]
  if result.conf_escolha = Status.INDETERMINADO then
    if result.match_score = 0 then (Status.ALERTA, "sem_match_protocolo")
    else
      (Status.ALERTA,
        if result.conf_escolha_razao = "" then "dados_insuficientes"
        else result.conf_escolha_razao)
  else if statuses.contains Status.NAO_CONFORME then
    let reasons :=
      (if result.conf_escolha = Status.NAO_CONFORME then [result.conf_escolha_razao] else []) ++
      (if result.conf_dose = Status.NAO_CONFORME then [result.conf_dose_razao] else []) ++
      (if result.conf_timing = Status.NAO_CONFORME then [result.conf_timing_razao] else []) ++
      (if result.conf_repique = Status.NAO_CONFORME then [result.conf_repique_razao] else [])
    (Status.NAO_CONFORME, ", ".intercalate reasons)
  else if statuses.contains Status.ALERTA then
    if result.conf_dose = Status.ALERTA then (Status.ALERTA, result.conf_dose_razao)
    else if result.conf_escolha = Status.ALERTA then (Status.ALERTA, result.conf_escolha_razao)
    else (Status.ALERTA, "alerta_validacao")
  else (Status.CONFORME, "todos_criterios_conformes")

/-- The outcome type of `_match_with_protocol`: optional matched rule, score,
method tag.  `audit_surgery` is parameterized by this matching function. -/
abbrev MatchFn := String → Option ProtocolRule × ℚ × String

/-- `AuditResult.add_observacao` (src/models/audit_data.py). -/
def add_observacao (obs : List String) (o : String) : List String :=
  if o ≠ "" ∧ ¬ obs.contains o then obs ++ [o] else obs

/-- `audit_surgery` (surgery_auditor.py, lines 347-434), with the
`_match_with_protocol` call abstracted as `matchFn`. -/
def audit_surgery (cfg : AuditConfig) (matchFn : MatchFn) (record : SurgeryRecord) : AuditResult :=
  let result : AuditResult := { surgery_record := record }
  let mres := matchFn record.procedure
  let matched_rule := mres.1
  let score := mres.2.1
  let mtd := mres.2.2
  let result :=
    match matched_rule with
    | some rule =>
      let primary_drugs := rule.primary_recommendation.drugs
      let allergy_drugs := rule.allergy_recommendation.drugs
      { result with
          matched_rule_id := some rule.rule_id
          match_score := score
          match_method := mtd
          protocolo_secao := rule.sect
          protocolo_procedimento := rule.procedure
          protocolo_requer_profilaxia := rule.is_prophylaxis_required
          protocolo_atb_recomendados :=
            ((primary_drugs ++ allergy_drugs).filter (fun (d : Drug) => d.name ≠ "")).map
              (fun (d : Drug) => d.name)
          protocolo_dose_esperada :=
            match primary_drugs with
            | d :: _ => d.dose.getD ""
            | [] => result.protocolo_dose_esperada }
    | none =>
      { result with
          match_score := 0
          observacoes :=
            add_observacao result.observacoes "Procedimento nao encontrado no protocolo" }
  let result :=
    if record.atb_given = "SIM" then
      let sr := validate_choice record matched_rule
      { result with conf_escolha := sr.1, conf_escolha_razao := sr.2 }
    else if matched_rule.isSome ∧ rule_requires_prophylaxis matched_rule then
      { result with conf_escolha := Status.NAO_CONFORME,
                    conf_escolha_razao := "atb_nao_administrado" }
    else if matched_rule.isNone then
      { result with conf_escolha := Status.CONFORME, conf_escolha_razao := "sem_match_sem_atb" }
    else
      { result with conf_escolha := Status.CONFORME,
                    conf_escolha_razao := "Profilaxia nao requerida" }
  let result :=
    if record.atb_given = "SIM" ∧ optNumTruthy record.dose_administered_mg then
      let rsr := validate_dose cfg record matched_rule result
      { rsr.1 with conf_dose := rsr.2.1, conf_dose_razao := rsr.2.2 }
    else if record.atb_given = "SIM" then
      { result with conf_dose := Status.INDETERMINADO, conf_dose_razao := "dose_nao_informada" }
    else
      { result with conf_dose := Status.CONFORME, conf_dose_razao := "criterio_nao_aplicavel" }
  let result :=
    if record.atb_given = "SIM" then
      let rsr := validate_timing cfg record result
      { rsr.1 with conf_timing := rsr.2.1, conf_timing_razao := rsr.2.2 }
    else
      { result with conf_timing := Status.CONFORME, conf_timing_razao := "criterio_nao_aplicavel" }
  let result :=
    if record.atb_given = "SIM" then
      let rsr := validate_redosing record result
      { rsr.1 with conf_repique := rsr.2.1, conf_repique_razao := rsr.2.2 }
    else
      { result with conf_repique := Status.CONFORME,
                    conf_repique_razao := "criterio_nao_aplicavel" }
  let fin := calculate_final_conformity result
  { result with conf_final := fin.1, conf_final_razao := fin.2 }

/-- `audit_all_surgeries` (surgery_auditor.py, lines 320-345): the per-record
`audit_surgery` call may raise (modelled as `Except`); an error is converted
into an INDETERMINADO result carrying the error text and the loop continues
with the remaining records. -/
def audit_all_surgeries (auditFn : SurgeryRecord → Except String AuditResult) :
    List SurgeryRecord → List AuditResult
  | [] => []
  | record :: rest =>
    (match auditFn record with
     | .ok result => result
     | .error e =>
       { surgery_record := record
         conf_final := Status.INDETERMINADO
         conf_final_razao := "Erro na auditoria: " ++ e }) :: audit_all_surgeries auditFn rest

/-- `SurgeryAuditor.__init__` (surgery_auditor.py, lines 36-62): store the
repository and the configuration (defaulting to `AUDIT_CONFIG`) and build the
normalized translation map.  The body performs no validation; modelled in
`Except` to expose that it cannot raise. -/
def surgery_auditor_init (rules_repository : List ProtocolRule) (config : Option AuditConfig)
    (procedure_translation_map : List (String × String)) :
    Except String (List ProtocolRule × AuditConfig × List (String × String)) :=
  let cfg := config.getD AUDIT_CONFIG
  let tmap := procedure_translation_map.foldl
    (fun acc p =>
      if p.1 = "" ∨ p.2 = "" then acc
      else
        let key_norm := normalize_text p.1
        if key_norm = "" then acc
        else (acc.filter (fun q => q.1 ≠ key_norm)) ++ [(key_norm, p.2.trim)])
    []
  .ok (rules_repository, cfg, tmap)

/-- The final-conformity combinator exactly as the specification's
final-combinator sentences state it (reference definition for C1): choice
INDETERMINADO gates to ALERTA (tagged `sem_match_protocolo` on a zero match
score, else the choice reason); else any NAO_CONFORME criterion gives
NAO_CONFORME with the comma-joined reasons of exactly the non-conforming
criteria in the order choice, dose, timing, redosing; else any ALERTA gives
ALERTA preferring the dose reason, then the choice reason, else the generic
manual-review reason; else CONFORME. -/
def spec_final_combinator (result : AuditResult) : Status × String :=
  if result.conf_escolha = Status.INDETERMINADO then
    (Status.ALERTA,
      if result.match_score = 0 then "sem_match_protocolo" else result.conf_escolha_razao)
  else if result.conf_escolha = Status.NAO_CONFORME ∨ result.conf_dose = Status.NAO_CONFORME ∨
      result.conf_timing = Status.NAO_CONFORME ∨ result.conf_repique = Status.NAO_CONFORME then
    let reasons :=
      (if result.conf_escolha = Status.NAO_CONFORME then [result.conf_escolha_razao] else []) ++
      (if result.conf_dose = Status.NAO_CONFORME then [result.conf_dose_razao] else []) ++
      (if result.conf_timing = Status.NAO_CONFORME then [result.conf_timing_razao] else []) ++
      (if result.conf_repique = Status.NAO_CONFORME then [result.conf_repique_razao] else [])
    (Status.NAO_CONFORME, ", ".intercalate reasons)
  else if result.conf_escolha = Status.ALERTA ∨ result.conf_dose = Status.ALERTA ∨
      result.conf_timing = Status.ALERTA ∨ result.conf_repique = Status.ALERTA then
    if result.conf_dose = Status.ALERTA then (Status.ALERTA, result.conf_dose_razao)
    else if result.conf_escolha = Status.ALERTA then (Status.ALERTA, result.conf_escolha_razao)
    else (Status.ALERTA, "alerta_validacao")
  else (Status.CONFORME, "todos_criterios_conformes")

/-- C1's reference definition amended minimally: when the choice criterion is
INDETERMINADO with a non-zero match score and an empty choice reason, the
final reason falls back to `dados_insuficientes` (the code's
`or 'dados_insuficientes'`). -/
def spec_final_combinator_amended (result : AuditResult) : Status × String :=
  if result.conf_escolha = Status.INDETERMINADO ∧ result.match_score ≠ 0 ∧
      result.conf_escolha_razao = "" then
    (Status.ALERTA, "dados_insuficientes")
  else spec_final_combinator result

/-- A configuration with valid thresholds, following the specification's words
(§6 lists the threshold configuration, §7 calls out "invalid thresholds"):
the similarity thresholds are scores in `[0, 1]` and the tolerance
percentages and timing window are nonnegative. -/
def spec_valid_config (cfg : AuditConfig) : Prop :=
  0 ≤ cfg.match_threshold ∧ cfg.match_threshold ≤ 1 ∧
  0 ≤ cfg.translation_match_similarity_threshold ∧
  cfg.translation_match_similarity_threshold ≤ 1 ∧
  0 ≤ cfg.alert_dose_tolerance_percent ∧ 0 ≤ cfg.dose_tolerance_percent ∧
  0 ≤ cfg.hard_dose_tolerance_percent ∧ 0 ≤ cfg.timing_window_minutes

/-- A configuration whose thresholds are invalid under any reading: a negative
dose tolerance and a match threshold above 1. -/
def invalid_config : AuditConfig :=
  { match_threshold := 2, dose_tolerance_percent := -15 }

/-- Render a clock time as the canonical `HH:MM` string. -/
def fmtTime (h m : Nat) : String :=
  ⟨[Nat.digitChar (h / 10), Nat.digitChar (h % 10), ':',
    Nat.digitChar (m / 10), Nat.digitChar (m % 10)]⟩

/-- The day-wrap adjustment the specification describes for
`calculate_time_diff_minutes`: add 1440 below −720, subtract 1440 above
720. -/
def wrapAdjust (diff : Int) : Int :=
  if diff < -720 then diff + 1440 else if diff > 720 then diff - 1440 else diff

/-- The whitespace token set of a normalized string (a Python `set(·.split())`
as a deduplicated list). -/
def normTokens (x : String) : List (List Char) :=
  (splitWS (normalize_text x).data).dedup

/-- One normalized token set is a non-empty subset of the other (the condition
under which `token_set_ratio` short-circuits to 100). -/
def token_subset_condition (x y : String) : Prop :=
  normTokens x ≠ [] ∧ normTokens y ≠ [] ∧
    (normTokens x ⊆ normTokens y ∨ normTokens y ⊆ normTokens x)

/-- A matching function that finds no protocol rule for any procedure, as
`_match_with_protocol` returns when nothing matches. -/
def noMatchFn : MatchFn := fun _ => (none, 0, "no_match")

/-- A surgery record with an antibiotic given after the incision (timing
NAO_CONFORME) whose procedure matches no protocol rule. -/
def unmatchedLateRecord : SurgeryRecord :=
  { procedure := "CIRURGIA X"
    atb_given := "SIM"
    atb_time := some "09:00"
    incision_time := some "08:00" }

/-- An audit result whose choice criterion is INDETERMINADO with an empty
reason and a non-zero match score (all other criteria conformant). -/
def emptyReasonResult : AuditResult :=
  { surgery_record := {}
    conf_escolha := Status.INDETERMINADO
    conf_escolha_razao := ""
    match_score := 1
    conf_dose := Status.CONFORME
    conf_timing := Status.CONFORME
    conf_repique := Status.CONFORME }

/-- A protocol rule recommending CEFAZOLINA 2G with prophylaxis required. -/
def cefRule : ProtocolRule :=
  { rule_id := "r1"
    is_prophylaxis_required := true
    primary_recommendation := { drugs := [{ name := "CEFAZOLINA", dose := some "2G" }] } }

/-- A matching function that resolves every procedure to `cefRule`. -/
def cefMatchFn : MatchFn := fun _ => (some cefRule, 1, "exact_match")

/-- A record with the antibiotic given and CEFAZOLINA detected. -/
def cefRecord : SurgeryRecord :=
  { procedure := "P"
    atb_given := "SIM"
    atb_detected := ["CEFAZOLINA"] }

/-! ## Theorems -/

theorem validate_dose_keeps_choice (cfg : AuditConfig) (record : SurgeryRecord)
    (rule : Option ProtocolRule) (res : AuditResult) :
    (validate_dose cfg record rule res).1.conf_escolha = res.conf_escolha ∧
    (validate_dose cfg record rule res).1.conf_escolha_razao = res.conf_escolha_razao ∧
    (validate_dose cfg record rule res).1.match_score = res.match_score := by
  unfold validate_dose
  refine ⟨?_, ?_, ?_⟩ <;> (repeat' split) <;> (try simp) <;> (repeat' split) <;> simp

theorem validate_timing_keeps_choice (cfg : AuditConfig) (record : SurgeryRecord)
    (res : AuditResult) :
    (validate_timing cfg record res).1.conf_escolha = res.conf_escolha ∧
    (validate_timing cfg record res).1.conf_escolha_razao = res.conf_escolha_razao ∧
    (validate_timing cfg record res).1.match_score = res.match_score := by
  unfold validate_timing
  refine ⟨?_, ?_, ?_⟩ <;> (repeat' split) <;> (try simp) <;> (repeat' split) <;> simp

theorem validate_redosing_keeps_choice (record : SurgeryRecord) (res : AuditResult) :
    (validate_redosing record res).1.conf_escolha = res.conf_escolha ∧
    (validate_redosing record res).1.conf_escolha_razao = res.conf_escolha_razao ∧
    (validate_redosing record res).1.match_score = res.match_score := by
  unfold validate_redosing
  refine ⟨?_, ?_, ?_⟩ <;> (repeat' split) <;> (try simp) <;> (repeat' split) <;> simp

theorem calculate_final_gate (r : AuditResult) (h1 : r.conf_escolha = Status.INDETERMINADO)
    (h2 : r.match_score = 0) :
    calculate_final_conformity r = (Status.ALERTA, "sem_match_protocolo") := by
  unfold calculate_final_conformity
  simp [h1, h2]

/-- C5: with the default tolerances (alert 10%, standard 15%, hard 100%), once
the percent delta Δ% has been computed, the tolerance-band classification
closing `_validate_dose` maps `|Δ%| ≤ 10` to CONFORME, `10 < |Δ%| ≤ 15` to
ALERTA(dose_pequena_diferenca), `15 < |Δ%| ≤ 100` to
ALERTA(dose_fora_referencia), and `|Δ%| > 100` to NAO_CONFORME, with reason
dose_muito_baixa when `Δ% < -15` and dose_muito_alta otherwise. -/
theorem dose_band_default_tolerances (diff_pct : ℚ) :
    (|diff_pct| ≤ 10 → dose_band AUDIT_CONFIG diff_pct = (Status.CONFORME, "dose_correta")) ∧
    (10 < |diff_pct| ∧ |diff_pct| ≤ 15 →
      dose_band AUDIT_CONFIG diff_pct = (Status.ALERTA, "dose_pequena_diferenca")) ∧
    (15 < |diff_pct| ∧ |diff_pct| ≤ 100 →
      dose_band AUDIT_CONFIG diff_pct = (Status.ALERTA, "dose_fora_referencia")) ∧
    (100 < |diff_pct| →
      dose_band AUDIT_CONFIG diff_pct =
        (Status.NAO_CONFORME,
          if diff_pct < -15 then "dose_muito_baixa" else "dose_muito_alta")) := by
  have ha : AUDIT_CONFIG.alert_dose_tolerance_percent = 10 := rfl
  have ht : AUDIT_CONFIG.dose_tolerance_percent = 15 := rfl
  have hh : AUDIT_CONFIG.hard_dose_tolerance_percent = 100 := rfl
  unfold dose_band
  rw [ha, ht, hh]
  dsimp only
  refine ⟨?_, ?_, ?_, ?_⟩ <;> intro h <;> split_ifs <;> try rfl
  all_goals first
    | linarith [h.1, h.2]
    | linarith [h]
    | (obtain ⟨hx, hy⟩ := h; linarith)
    | linarith

/-- Witness for C5 at Δ% = 12: ALERTA with the small-difference reason. -/
theorem dose_band_default_tolerances_witness :
    dose_band AUDIT_CONFIG 12 = (Status.ALERTA, "dose_pequena_diferenca") :=
  (dose_band_default_tolerances 12).2.1 (by norm_num)

/-- C6: the dose extractor reads "2G" as 2000 mg, "500MG" as 500 mg, "1,5G"
(decimal comma) as 1500 mg and "2G + 500MG" as 2000 mg; in general it returns
the maximum of the recognized candidate doses converted to mg, and `none`
when no dose pattern is recognized (`max?` of the candidate list). -/
theorem extract_dose_policy :
    extract_dose_from_text "2G" = some 2000 ∧
    extract_dose_from_text "500MG" = some 500 ∧
    extract_dose_from_text "1,5G" = some 1500 ∧
    extract_dose_from_text "2G + 500MG" = some 2000 ∧
    (∀ text : String, extract_dose_from_text text = (doseCandidates text).max?) := by
  refine ⟨?_, ?_, ?_, ?_, fun text => ?_⟩
  case refine_5 => cases h : doseCandidates text <;> simp [extract_dose_from_text, List.max?, h]
  all_goals
    simp +decide [extract_dose_from_text, doseCandidates, scanDoses, attemptDose, parseNumber,
        matchUnit, boundaryAfter, digitsVal, gramUnits, mgUnits, String.data]
    try norm_num

set_option maxHeartbeats 1000000 in
theorem fmtTime_parse : ∀ h < 24, ∀ m < 60,
    (match (fmtTime h m).data.splitOn ':' with
     | a :: b :: _ => (pyInt a, pyInt b)
     | _ => ((none : Option Int), (none : Option Int))) = (some (h : Int), some (m : Int)) := by
  decide

/-- C7: for valid clock times, `calculate_time_diff_minutes` returns the
signed minute difference (second minus first) adjusted by +1440 when the raw
difference is below −720 and by −1440 when it is above 720. -/
theorem calculate_time_diff_wrap (h1 m1 h2 m2 : Nat)
    (hh1 : h1 < 24) (hm1 : m1 < 60) (hh2 : h2 < 24) (hm2 : m2 < 60) :
    calculate_time_diff_minutes (fmtTime h1 m1) (fmtTime h2 m2) =
      some (wrapAdjust (((h2 : Int) * 60 + m2) - ((h1 : Int) * 60 + m1))) := by
  have p1 := fmtTime_parse h1 hh1 m1 hm1
  have p2 := fmtTime_parse h2 hh2 m2 hm2
  unfold calculate_time_diff_minutes wrapAdjust
  rcases e1 : (fmtTime h1 m1).data.splitOn ':' with _ | ⟨a0, _ | ⟨a1, r1⟩⟩ <;> rw [e1] at p1 <;>
    rcases e2 : (fmtTime h2 m2).data.splitOn ':' with _ | ⟨b0, _ | ⟨b1, r2⟩⟩ <;> rw [e2] at p2 <;>
    simp only [Prod.mk.injEq] at p1 p2 <;> try exact absurd p1.1 (by simp)
  all_goals try exact absurd p2.1 (by simp)
  dsimp only
  rw [p1.1, p1.2, p2.1, p2.2]

/-- Witness for C7: the day-wrap example, 23:50 to 00:10 is 20 minutes (not
−1420). -/
theorem calculate_time_diff_wrap_witness :
    calculate_time_diff_minutes "23:50" "00:10" = some 20 := by
  have h := calculate_time_diff_wrap 23 50 0 10 (by norm_num) (by norm_num) (by norm_num)
    (by norm_num)
  have hf1 : fmtTime 23 50 = "23:50" := by decide
  have hf2 : fmtTime 0 10 = "00:10" := by decide
  rw [hf1, hf2] at h
  rw [h]
  norm_num [wrapAdjust]

/-- C1 fails as stated: on a result whose choice criterion is INDETERMINADO
with an empty choice reason and a non-zero match score, the code's combinator
falls back to the `dados_insuficientes` reason while the claim's reference
definition keeps the (empty) choice reason. -/
theorem final_combinator_ne_spec_reference :
    calculate_final_conformity emptyReasonResult ≠ spec_final_combinator emptyReasonResult := by
  decide

/-- C1 (amended): the final-conformity combinator equals the specification's
reference definition amended with the `dados_insuficientes` fallback for an
empty choice reason, on every audit result. -/
theorem final_combinator_eq_spec_reference_amended (result : AuditResult) :
    calculate_final_conformity result = spec_final_combinator_amended result := by
  unfold calculate_final_conformity spec_final_combinator_amended spec_final_combinator
  cases he : result.conf_escolha <;> cases hd : result.conf_dose <;>
    cases ht : result.conf_timing <;> cases hr : result.conf_repique <;>
      simp [he, hd, ht, hr] <;> split_ifs <;> simp_all

/-- C3 fails as stated: an audited record with an unmatched procedure and an
antibiotic given after the incision has its timing criterion NAO_CONFORME,
yet the final status is ALERTA (the choice-INDETERMINADO gate precedes the
NAO_CONFORME check), not NAO_CONFORME. -/
theorem nao_conforme_not_forced_under_gate :
    (audit_surgery AUDIT_CONFIG noMatchFn unmatchedLateRecord).conf_timing =
        Status.NAO_CONFORME ∧
    (audit_surgery AUDIT_CONFIG noMatchFn unmatchedLateRecord).conf_final = Status.ALERTA ∧
    (audit_surgery AUDIT_CONFIG noMatchFn unmatchedLateRecord).conf_final ≠
        Status.NAO_CONFORME := by
  decide

/-- C3 (amended): whenever the choice criterion is not INDETERMINADO, a
NAO_CONFORME status on any of the four criteria forces the computed final
status to NAO_CONFORME, regardless of the other criteria. -/
theorem nao_conforme_forces_final (r : AuditResult)
    (hch : r.conf_escolha ≠ Status.INDETERMINADO)
    (h : r.conf_escolha = Status.NAO_CONFORME ∨ r.conf_dose = Status.NAO_CONFORME ∨
      r.conf_timing = Status.NAO_CONFORME ∨ r.conf_repique = Status.NAO_CONFORME) :
    (calculate_final_conformity r).1 = Status.NAO_CONFORME := by
  unfold calculate_final_conformity
  rcases h with h | h | h | h <;> simp [hch, h]

/-- Witness for C3 (amended) at a result whose choice criterion is
NAO_CONFORME. -/
theorem nao_conforme_forces_final_witness :
    (calculate_final_conformity
        { surgery_record := {}, conf_escolha := Status.NAO_CONFORME }).1 =
      Status.NAO_CONFORME :=
  nao_conforme_forces_final _ (by decide) (Or.inl rfl)

theorem calculate_final_gate_fst (r : AuditResult) (h1 : r.conf_escolha = Status.INDETERMINADO)
    (h2 : r.match_score = 0) : (calculate_final_conformity r).1 = Status.ALERTA := by
  rw [calculate_final_gate r h1 h2]

theorem calculate_final_gate_snd (r : AuditResult) (h1 : r.conf_escolha = Status.INDETERMINADO)
    (h2 : r.match_score = 0) :
    (calculate_final_conformity r).2 = "sem_match_protocolo" := by
  rw [calculate_final_gate r h1 h2]

/-- C2: auditing any record with the antibiotic given whose procedure the
matcher resolves to no rule yields a final status of ALERTA tagged
`sem_match_protocolo`; the final status is never NAO_CONFORME and never
INDETERMINADO for such a record. -/
theorem unmatched_with_atb_final_alerta (cfg : AuditConfig) (matchFn : MatchFn)
    (record : SurgeryRecord) (s : ℚ) (m : String)
    (hmatch : matchFn record.procedure = (none, s, m))
    (hatb : record.atb_given = "SIM") :
    (audit_surgery cfg matchFn record).conf_final = Status.ALERTA ∧
    (audit_surgery cfg matchFn record).conf_final_razao = "sem_match_protocolo" ∧
    (audit_surgery cfg matchFn record).conf_final ≠ Status.NAO_CONFORME ∧
    (audit_surgery cfg matchFn record).conf_final ≠ Status.INDETERMINADO := by
  have key : (audit_surgery cfg matchFn record).conf_final = Status.ALERTA ∧
      (audit_surgery cfg matchFn record).conf_final_razao = "sem_match_protocolo" := by
    unfold audit_surgery
    rw [hmatch]
    simp only [hatb, validate_choice, if_true, ite_true, true_and, Option.isSome_none,
      Bool.false_and, Option.isNone_none]
    constructor
    · apply calculate_final_gate_fst <;>
        simp [validate_redosing_keeps_choice, validate_timing_keeps_choice,
              validate_dose_keeps_choice] <;> split_ifs <;>
          simp [validate_redosing_keeps_choice, validate_timing_keeps_choice,
                validate_dose_keeps_choice]
    · apply calculate_final_gate_snd <;>
        simp [validate_redosing_keeps_choice, validate_timing_keeps_choice,
              validate_dose_keeps_choice] <;> split_ifs <;>
          simp [validate_redosing_keeps_choice, validate_timing_keeps_choice,
                validate_dose_keeps_choice]
  exact ⟨key.1, key.2, by rw [key.1]; decide, by rw [key.1]; decide⟩

/-- Witness for C2: a concrete antibiotic-given record with no protocol
match. -/
theorem unmatched_with_atb_final_alerta_witness :
    (audit_surgery AUDIT_CONFIG noMatchFn
        { procedure := "CIRURGIA Y", atb_given := "SIM" }).conf_final = Status.ALERTA ∧
    (audit_surgery AUDIT_CONFIG noMatchFn
        { procedure := "CIRURGIA Y", atb_given := "SIM" }).conf_final_razao =
      "sem_match_protocolo" :=
  ⟨(unmatched_with_atb_final_alerta AUDIT_CONFIG noMatchFn _ 0 "no_match" rfl rfl).1,
   (unmatched_with_atb_final_alerta AUDIT_CONFIG noMatchFn _ 0 "no_match" rfl rfl).2.1⟩

/-- C4: in the choice criterion, for a record with the antibiotic given, a
matched rule with a non-empty recommended-drug list and a non-empty
detected-drug list, the status is CONFORME when some detected drug is
recommended, else ALERTA when the rule does not strictly require prophylaxis,
else NAO_CONFORME with reason `atb_nao_recomendado`. -/
theorem choice_criterion_detected_cases (cfg : AuditConfig) (matchFn : MatchFn)
    (record : SurgeryRecord) (rule : ProtocolRule) (s : ℚ) (m : String)
    (hmatch : matchFn record.procedure = (some rule, s, m))
    (hatb : record.atb_given = "SIM")
    (hdrugs : get_recommendation_drugs (some rule) ≠ [])
    (hdet : record.atb_detected ≠ []) :
    ((audit_surgery cfg matchFn record).conf_escolha,
      (audit_surgery cfg matchFn record).conf_escolha_razao) =
      if record.atb_detected.any (fun d =>
          ((get_recommendation_drugs (some rule)).map (fun dr => dr.name)).contains d) then
        (Status.CONFORME, "atb_recomendado")
      else if ¬ rule_requires_prophylaxis (some rule) then
        (Status.ALERTA, "profilaxia_potencial_sem_indicacao")
      else (Status.NAO_CONFORME, "atb_nao_recomendado") := by
  unfold audit_surgery
  rw [hmatch]
  simp only [hatb, if_true, ite_true, true_and]
  have hch : validate_choice record (some rule) =
      if record.atb_detected.any (fun d =>
          ((get_recommendation_drugs (some rule)).map (fun dr => dr.name)).contains d) then
        (Status.CONFORME, "atb_recomendado")
      else if ¬ rule_requires_prophylaxis (some rule) then
        (Status.ALERTA, "profilaxia_potencial_sem_indicacao")
      else (Status.NAO_CONFORME, "atb_nao_recomendado") := by
    unfold validate_choice
    simp only [hdrugs, hdet, if_neg, ite_false]
    try (split_ifs <;> simp_all)
  rw [hch]
  split_ifs <;>
    simp_all [validate_redosing_keeps_choice, validate_timing_keeps_choice,
              validate_dose_keeps_choice]

/-- Witness for C4: a record whose detected CEFAZOLINA matches the rule's
recommendation is CONFORME. -/
theorem choice_criterion_detected_cases_witness :
    ((audit_surgery AUDIT_CONFIG cefMatchFn cefRecord).conf_escolha,
      (audit_surgery AUDIT_CONFIG cefMatchFn cefRecord).conf_escolha_razao) =
      (Status.CONFORME, "atb_recomendado") := by
  rw [choice_criterion_detected_cases AUDIT_CONFIG cefMatchFn cefRecord cefRule 1 "exact_match"
    rfl rfl (by decide) (by decide)]
  decide

/-- C9 fails as stated: the auditor's initializer accepts a configuration
with invalid thresholds (a negative dose tolerance and a match threshold
above 1) without raising. -/
theorem auditor_init_accepts_invalid_config :
    surgery_auditor_init [] (some invalid_config) [] =
      .ok ([], invalid_config, []) ∧ ¬ spec_valid_config invalid_config := by
  constructor
  · rfl
  · intro h
    have h2 := h.2.1
    norm_num [invalid_config] at h2

/-- C9 (amended): constructing the auditor never fails; no threshold
validation happens at initialization, so any configuration — valid or not —
is accepted and used for auditing. -/
theorem auditor_init_never_fails (repo : List ProtocolRule) (config : Option AuditConfig)
    (tmap : List (String × String)) :
    ∃ st, surgery_auditor_init repo config tmap = .ok st :=
  ⟨_, rfl⟩

/-- C10: `audit_all_surgeries` yields exactly one result per input record, in
input order; a record whose audit raises produces an INDETERMINADO result
carrying the error description, and the remaining records are still
processed. -/
theorem audit_all_surgeries_per_record (auditFn : SurgeryRecord → Except String AuditResult)
    (records : List SurgeryRecord) :
    (audit_all_surgeries auditFn records).length = records.length ∧
    (∀ i : Nat, (audit_all_surgeries auditFn records)[i]? =
      (records[i]?).map (fun record =>
        match auditFn record with
        | .ok result => result
        | .error e =>
          { surgery_record := record
            conf_final := Status.INDETERMINADO
            conf_final_razao := "Erro na auditoria: " ++ e })) ∧
    (∀ (i : Nat) (record : SurgeryRecord) (e : String),
      records[i]? = some record → auditFn record = .error e →
      ∃ res : AuditResult, (audit_all_surgeries auditFn records)[i]? = some res ∧
        res.conf_final = Status.INDETERMINADO ∧
        res.conf_final_razao = "Erro na auditoria: " ++ e) := by
  have hget : ∀ (rs : List SurgeryRecord) (i : Nat),
      (audit_all_surgeries auditFn rs)[i]? =
        (rs[i]?).map (fun record =>
          match auditFn record with
          | .ok result => result
          | .error e =>
            { surgery_record := record
              conf_final := Status.INDETERMINADO
              conf_final_razao := "Erro na auditoria: " ++ e }) := by
    intro rs
    induction rs with
    | nil => intro i; simp [audit_all_surgeries]
    | cons r rest ih =>
      intro i
      cases i with
      | zero => simp [audit_all_surgeries]
      | succ n => simpa [audit_all_surgeries] using ih n
  refine ⟨?_, hget records, ?_⟩
  · induction records with
    | nil => rfl
    | cons r rest ih => simp [audit_all_surgeries, ih]
  · intro i record e h1 h2
    have h := hget records i
    rw [h1] at h
    refine ⟨_, h, ?_, ?_⟩ <;> simp [h2]

/-- Witness for C10: a one-record batch whose audit raises still yields one
INDETERMINADO result carrying the error text. -/
theorem audit_all_surgeries_per_record_witness :
    ∃ res : AuditResult,
      (audit_all_surgeries (fun _ => .error "boom") [{ }])[0]? = some res ∧
      res.conf_final = Status.INDETERMINADO ∧
      res.conf_final_razao = "Erro na auditoria: " ++ "boom" :=
  (audit_all_surgeries_per_record (fun _ => .error "boom") [{ }]).2.2 0 { } "boom" rfl rfl

theorem lcs_le_left : ∀ s1 s2 : List Char, lcs s1 s2 ≤ s1.length := by
  intro s1 s2
  induction s1, s2 using lcs.induct <;> simp_all [lcs, List.length_cons] <;> omega

theorem lcs_le_right : ∀ s1 s2 : List Char, lcs s1 s2 ≤ s2.length := by
  intro s1 s2
  induction s1, s2 using lcs.induct <;> simp_all [lcs, List.length_cons] <;> omega

theorem lcs_full_left : ∀ s1 s2 : List Char, lcs s1 s2 = s1.length → s1.Sublist s2 := by
  intro s1 s2
  induction s1, s2 using lcs.induct with
  | case1 s2 => intro _; exact List.nil_sublist s2
  | case2 a as => intro h; simp [lcs] at h
  | case3 as b bs ih =>
    intro h
    simp [lcs] at h
    exact List.Sublist.cons₂ b (ih h)
  | case4 a as b bs hne ih1 ih2 =>
    intro h
    simp only [lcs, if_neg hne] at h
    rcases max_choice (lcs (a :: as) bs) (lcs as (b :: bs)) with hm | hm
    · rw [hm] at h
      exact (ih1 h).cons b
    · rw [hm] at h
      have := lcs_le_left as (b :: bs)
      simp [List.length_cons] at h
      omega

theorem lcs_eq_of_double (s1 s2 : List Char) (h : s1.length + s2.length = 2 * lcs s1 s2) :
    s1 = s2 := by
  have h1 := lcs_le_left s1 s2
  have h2 := lcs_le_right s1 s2
  have e1 : lcs s1 s2 = s1.length := by omega
  have e2 : s1.length = s2.length := by omega
  exact (lcs_full_left s1 s2 e1).eq_of_length e2

theorem fuzz_ratio_bounds (s1 s2 : List Char) :
    0 ≤ fuzz_ratio s1 s2 ∧ fuzz_ratio s1 s2 ≤ 100 := by
  unfold fuzz_ratio indel_dist
  dsimp only
  have h1 := lcs_le_left s1 s2
  have h2 := lcs_le_right s1 s2
  set l1 : ℚ := (s1.length : ℚ) with hl1
  set l2 : ℚ := (s2.length : ℚ) with hl2
  split_ifs with ht
  · norm_num
  · have hpos : 0 < l1 + l2 := by
      rcases lt_or_eq_of_le (by positivity : (0:ℚ) ≤ l1 + l2) with h | h
      · exact h
      · exact absurd h.symm ht
    have hlcs1 : (lcs s1 s2 : ℚ) ≤ l1 := by rw [hl1]; exact_mod_cast h1
    have hlcs2 : (lcs s1 s2 : ℚ) ≤ l2 := by rw [hl2]; exact_mod_cast h2
    have hlcs0 : (0:ℚ) ≤ (lcs s1 s2 : ℚ) := by positivity
    constructor
    · have hd : (l1 + l2 - 2 * lcs s1 s2) / (l1 + l2) ≤ 1 := by
        rw [div_le_one hpos]; linarith
      nlinarith
    · have hd : 0 ≤ (l1 + l2 - 2 * lcs s1 s2) / (l1 + l2) := by
        apply div_nonneg _ (le_of_lt hpos); linarith
      nlinarith

theorem fuzz_ratio_eq_100 (s1 s2 : List Char) (h : fuzz_ratio s1 s2 = 100) : s1 = s2 := by
  unfold fuzz_ratio indel_dist at h
  dsimp only at h
  split_ifs at h with ht
  · have hl1 : (s1.length : ℚ) = 0 := by
      have : (s1.length : ℚ) ≥ 0 := by positivity
      have : (s2.length : ℚ) ≥ 0 := by positivity
      linarith
    have hl2 : (s2.length : ℚ) = 0 := by
      have : (s1.length : ℚ) ≥ 0 := by positivity
      linarith
    have e1 : s1 = [] := by
      have : s1.length = 0 := by exact_mod_cast hl1
      exact List.length_eq_zero.mp this
    have e2 : s2 = [] := by
      have : s2.length = 0 := by exact_mod_cast hl2
      exact List.length_eq_zero.mp this
    rw [e1, e2]
  · have hdiv : ((s1.length : ℚ) + s2.length - 2 * lcs s1 s2) / ((s1.length : ℚ) + s2.length) = 0 := by
      nlinarith [h]
    rcases div_eq_zero_iff.mp hdiv with hz | hz
    · apply lcs_eq_of_double
      have : (s1.length : ℚ) + s2.length = 2 * lcs s1 s2 := by linarith
      exact_mod_cast this
    · exact absurd hz ht

theorem mem_splitOnP_no_sep {p : Char → Bool} :
    ∀ (l : List Char) (t : List Char), t ∈ l.splitOnP p → ∀ c ∈ t, p c = false := by
  intro l
  induction l with
  | nil =>
    intro t ht c hc
    simp [List.splitOnP_nil] at ht
    subst ht
    simp at hc
  | cons x xs ih =>
    intro t ht c hc
    rw [List.splitOnP_cons] at ht
    by_cases hx : p x
    · rw [if_pos hx] at ht
      rcases List.mem_cons.mp ht with h | h
      · subst h; simp at hc
      · exact ih t h c hc
    · rw [if_neg hx] at ht
      rcases he : xs.splitOnP p with _ | ⟨hd, tl⟩
      · exact absurd he (List.splitOnP_ne_nil p xs)
      · rw [he] at ht
        simp only [List.modifyHead] at ht
        rcases List.mem_cons.mp ht with h | h
        · subst h
          rcases List.mem_cons.mp hc with h2 | h2
          · subst h2; exact Bool.eq_false_iff.mpr hx
          · exact ih hd (by rw [he]; exact List.mem_cons_self hd tl) c h2
        · exact ih t (by rw [he]; exact List.mem_cons_of_mem hd h) c hc

theorem splitWS_tokens (l : List Char) (t : List Char) (ht : t ∈ splitWS l) :
    t ≠ [] ∧ ∀ c ∈ t, isPySpace c = false := by
  unfold splitWS at ht
  have hmem := List.mem_filter.mp ht
  refine ⟨by simpa using hmem.2, mem_splitOnP_no_sep l t hmem.1⟩

theorem joinSp_single (t : List Char) : joinSp [t] = t := by
  simp [joinSp, List.intercalate, List.intersperse]

theorem joinSp_cons₂ (t u : List Char) (us : List (List Char)) :
    joinSp (t :: u :: us) = t ++ ' ' :: joinSp (u :: us) := by
  simp [joinSp, List.intercalate, List.intersperse]

theorem takeWhile_joinSp_head (t : List Char) (ts : List (List Char))
    (hsp : ∀ c ∈ t, isPySpace c = false) :
    (joinSp (t :: ts)).takeWhile (fun c => !isPySpace c) = t := by
  have hall : ∀ a ∈ t, (fun c => !isPySpace c) a = true := by
    intro a ha; simp [hsp a ha]
  cases ts with
  | nil =>
    rw [joinSp_single]
    calc t.takeWhile (fun c => !isPySpace c) = (t ++ []).takeWhile (fun c => !isPySpace c) := by
          rw [List.append_nil]
      _ = t ++ [].takeWhile (fun c => !isPySpace c) := List.takeWhile_append_of_pos hall
      _ = t := by simp
  | cons u us =>
    rw [joinSp_cons₂, List.takeWhile_append_of_pos hall]
    simp [List.takeWhile_cons, isPySpace]

theorem joinSp_head_ne_nil (t : List Char) (ts : List (List Char)) (ht : t ≠ []) :
    joinSp (t :: ts) ≠ [] := by
  cases ts with
  | nil => rw [joinSp_single]; exact ht
  | cons u us =>
    rw [joinSp_cons₂]
    simp [ht]

theorem sect_ratio_bounds (d t : ℚ) (hd : 0 ≤ d) (hdt : d ≤ t) :
    0 ≤ 100 * (1 - d / t) ∧ 100 * (1 - d / t) ≤ 100 := by
  rcases eq_or_lt_of_le (hd.trans hdt) with h | h
  · rw [← h]
    norm_num
  · have h1 : 0 ≤ d / t := div_nonneg hd h.le
    have h2 : d / t ≤ 1 := (div_le_one h).mpr hdt
    constructor <;> nlinarith

theorem sect_ratio_lt_100 (d t : ℚ) (hd : 0 < d) (htp : 0 < t) :
    100 * (1 - d / t) < 100 := by
  have : 0 < d / t := div_pos hd htp
  nlinarith

theorem sect_ratio_shape_le (S A b : ℚ) (hs : 0 ≤ S) (ha : 0 ≤ A) (hb : 0 ≤ b) :
    100 * (1 - (b + A) / ((S + b + A) + S)) ≤ 100 :=
  (sect_ratio_bounds (b + A) ((S + b + A) + S) (by linarith) (by linarith)).2

theorem token_set_ratio_bounds (s1 s2 : List Char) :
    0 ≤ token_set_ratio s1 s2 ∧ token_set_ratio s1 s2 ≤ 100 := by
  unfold token_set_ratio
  dsimp only
  split_ifs with h1 h2 h3
  · norm_num
  · norm_num
  · constructor
    · exact le_max_iff.mpr (Or.inl (fuzz_ratio_bounds _ _).1)
    · refine max_le (fuzz_ratio_bounds _ _).2 (max_le ?_ ?_) <;>
        exact sect_ratio_shape_le _ _ 1 (Nat.cast_nonneg _) (Nat.cast_nonneg _) (by norm_num)
  · constructor
    · exact le_max_iff.mpr (Or.inl (fuzz_ratio_bounds _ _).1)
    · refine max_le (fuzz_ratio_bounds _ _).2 (max_le ?_ ?_) <;>
        exact sect_ratio_shape_le _ _ 0 (Nat.cast_nonneg _) (Nat.cast_nonneg _) (by norm_num)

theorem max3_eq (a b c x : ℚ) (h : max a (max b c) = x) : a = x ∨ b = x ∨ c = x := by
  rcases max_choice a (max b c) with h1 | h1 <;> rw [h1] at h
  · exact Or.inl h
  · rcases max_choice b c with h2 | h2 <;> rw [h2] at h
    · exact Or.inr (Or.inl h)
    · exact Or.inr (Or.inr h)

theorem sect_ratio_ne_100 (d t : ℚ) (hd : 0 < d) (ht : 0 < t) : 100 * (1 - d / t) ≠ 100 := by
  have := div_pos hd ht
  intro h
  nlinarith

set_option maxHeartbeats 1000000 in
theorem token_set_ratio_eq_100 (s1 s2 : List Char) (h : token_set_ratio s1 s2 = 100) :
    (splitWS s1).dedup ≠ [] ∧ (splitWS s2).dedup ≠ [] ∧
    (splitWS s1).dedup.filter (fun t => decide (t ∈ (splitWS s2).dedup)) ≠ [] ∧
    ((splitWS s1).dedup.filter (fun t => decide (t ∉ (splitWS s2).dedup)) = [] ∨
     (splitWS s2).dedup.filter (fun t => decide (t ∉ (splitWS s1).dedup)) = []) := by
  unfold token_set_ratio at h
  dsimp only at h
  set A := (splitWS s1).dedup with hA
  set B := (splitWS s2).dedup with hB
  set inter := A.filter (fun t => decide (t ∈ B)) with hI
  set dab := A.filter (fun t => decide (t ∉ B)) with hDab
  set dba := B.filter (fun t => decide (t ∉ A)) with hDba
  split_ifs at h with h1 h2
  · norm_num at h
  · push_neg at h1
    exact ⟨h1.1, h1.2, h2.1, h2.2⟩
  all_goals exfalso
  all_goals {
    push_neg at h1
    have hdiffs : dab ≠ [] ∧ dba ≠ [] := by
      by_cases hint : inter = []
      · constructor
        · have : dab = A := by
            rw [hDab]
            apply List.filter_eq_self.mpr
            intro t ht
            simp only [decide_eq_true_eq]
            intro htB
            have : t ∈ inter := by
              rw [hI]
              exact List.mem_filter.mpr ⟨ht, by simpa using htB⟩
            rw [hint] at this
            simp at this
          rw [this]; exact h1.1
        · have : dba = B := by
            rw [hDba]
            apply List.filter_eq_self.mpr
            intro t ht
            simp only [decide_eq_true_eq]
            intro htA
            have : t ∈ inter := by
              rw [hI]
              exact List.mem_filter.mpr ⟨htA, by simpa using ht⟩
            rw [hint] at this
            simp at this
          rw [this]; exact h1.2
      · rcases not_and_or.mp h2 with hc | hc
        · exact absurd hint (by simpa using hc)
        · push_neg at hc
          exact hc
    rcases hs1 : sortToks dab with _ | ⟨t1, ts1⟩
    · have : dab = [] := by
        have hperm := List.perm_insertionSort (fun a b => tokLe a b = true) dab
        rw [sortToks] at hs1
        rw [hs1] at hperm
        exact hperm.symm.eq_nil
      exact hdiffs.1 this
    rcases hs2 : sortToks dba with _ | ⟨t2, ts2⟩
    · have : dba = [] := by
        have hperm := List.perm_insertionSort (fun a b => tokLe a b = true) dba
        rw [sortToks] at hs2
        rw [hs2] at hperm
        exact hperm.symm.eq_nil
      exact hdiffs.2 this
    have ht1mem : t1 ∈ dab := by
      have : t1 ∈ sortToks dab := by rw [hs1]; exact List.mem_cons_self t1 ts1
      exact (List.mem_insertionSort _).mp this
    have ht2mem : t2 ∈ dba := by
      have : t2 ∈ sortToks dba := by rw [hs2]; exact List.mem_cons_self t2 ts2
      exact (List.mem_insertionSort _).mp this
    have ht1A : t1 ∈ A ∧ t1 ∉ B := by
      have := List.mem_filter.mp (hDab ▸ ht1mem)
      exact ⟨this.1, by simpa using this.2⟩
    have ht2B : t2 ∈ B ∧ t2 ∉ A := by
      have := List.mem_filter.mp (hDba ▸ ht2mem)
      exact ⟨this.1, by simpa using this.2⟩
    have htok1 : t1 ≠ [] ∧ ∀ c ∈ t1, isPySpace c = false :=
      splitWS_tokens s1 t1 (List.mem_dedup.mp (hA ▸ ht1A.1))
    have htok2 : t2 ≠ [] ∧ ∀ c ∈ t2, isPySpace c = false :=
      splitWS_tokens s2 t2 (List.mem_dedup.mp (hB ▸ ht2B.1))
    have hdJ : joinSp (sortToks dab) ≠ [] := by
      rw [hs1]; exact joinSp_head_ne_nil t1 ts1 htok1.1
    have heJ : joinSp (sortToks dba) ≠ [] := by
      rw [hs2]; exact joinSp_head_ne_nil t2 ts2 htok2.1
    have hab1 : (1:ℚ) ≤ ((joinSp (sortToks dab)).length : ℚ) := by
      exact_mod_cast Nat.one_le_iff_ne_zero.mpr (by simpa using hdJ)
    have hba1 : (1:ℚ) ≤ ((joinSp (sortToks dba)).length : ℚ) := by
      exact_mod_cast Nat.one_le_iff_ne_zero.mpr (by simpa using heJ)
    have hsect0 : (0:ℚ) ≤ ((joinSp inter).length : ℚ) := Nat.cast_nonneg _
    rcases max3_eq _ _ _ _ h with hc | hc | hc
    · have heq := fuzz_ratio_eq_100 _ _ hc
      have e1 : (joinSp (sortToks dab)).takeWhile (fun c => !isPySpace c) = t1 := by
        rw [hs1]; exact takeWhile_joinSp_head t1 ts1 htok1.2
      have e2 : (joinSp (sortToks dba)).takeWhile (fun c => !isPySpace c) = t2 := by
        rw [hs2]; exact takeWhile_joinSp_head t2 ts2 htok2.2
      have ht12 : t1 = t2 := by rw [← e1, ← e2, heq]
      exact ht2B.2 (ht12 ▸ ht1A.1)
    · exact sect_ratio_ne_100 _ _ (by linarith) (by linarith) hc
    · exact sect_ratio_ne_100 _ _ (by linarith) (by linarith) hc
  }


/-- C8 fails as stated: the token sets of "ab cd" and "ab" make one a
non-empty subset of the other, so the score is exactly 1 although the
normalized forms differ. -/
theorem fuzzy_match_score_one_without_normalized_eq :
    fuzzy_match_score "ab cd" "ab" = 1 ∧ normalize_text "ab cd" ≠ normalize_text "ab" := by
  have h100 : token_set_ratio (normalize_text "ab cd").data (normalize_text "ab").data = 100 := by
    decide
  have hne : normalize_text "ab cd" ≠ normalize_text "ab" := by decide
  refine ⟨?_, hne⟩
  unfold fuzzy_match_score
  dsimp only
  rw [if_neg (by decide), if_neg hne, h100]
  norm_num

/-- C8 (amended): `fuzzy_match_score` always lies in `[0, 1]`; it is 1 on
every non-empty string compared with itself; and it is 1 only when the
normalized forms are exactly equal or the normalized token set of one input
is a non-empty subset of the other's. -/
theorem fuzzy_match_score_range_refl_one :
    (∀ x y : String, 0 ≤ fuzzy_match_score x y ∧ fuzzy_match_score x y ≤ 1) ∧
    (∀ x : String, x ≠ "" → fuzzy_match_score x x = 1) ∧
    (∀ x y : String, fuzzy_match_score x y = 1 →
      normalize_text x = normalize_text y ∨ token_subset_condition x y) := by
  refine ⟨?_, ?_, ?_⟩
  · intro x y
    unfold fuzzy_match_score
    dsimp only
    split_ifs with h1 h2
    · norm_num
    · norm_num
    · have hb := token_set_ratio_bounds (normalize_text x).data (normalize_text y).data
      constructor <;> [linarith; linarith]
  · intro x hx
    unfold fuzzy_match_score
    rw [if_neg (by simp [hx]), if_pos rfl]
  · intro x y h
    unfold fuzzy_match_score at h
    dsimp only at h
    split_ifs at h with h1 h2
    · norm_num at h
    · exact Or.inl h2
    · right
      have h100 : token_set_ratio (normalize_text x).data (normalize_text y).data = 100 := by
        field_simp at h
        exact h
      obtain ⟨hA, hB, hint, hsub⟩ := token_set_ratio_eq_100 _ _ h100
      refine ⟨hA, hB, ?_⟩
      rcases hsub with hs | hs
      · left
        intro t ht
        by_contra htB
        have hm := List.filter_eq_nil_iff.mp hs t ht
        simp only [decide_eq_true_eq, not_not] at hm
        exact htB hm
      · right
        intro t ht
        by_contra htA
        have hm := List.filter_eq_nil_iff.mp hs t ht
        simp only [decide_eq_true_eq, not_not] at hm
        exact htA hm

/-- Witness for C8 (amended): the reflexivity clause at "a", and the
only-when clause discharged with the score the theorem itself provides. -/
theorem fuzzy_match_score_range_refl_one_witness :
    fuzzy_match_score "a" "a" = 1 ∧
    (normalize_text "a" = normalize_text "a" ∨ token_subset_condition "a" "a") :=
  have h1 : fuzzy_match_score "a" "a" = 1 :=
    fuzzy_match_score_range_refl_one.2.1 "a" (by decide)
  ⟨h1, fuzzy_match_score_range_refl_one.2.2 "a" "a" h1⟩
